import Mathlib

/-!
Verification of the EZone HVAC integration (`custom_components/ezone`):
a shallow embedding of the API client (`ezone_api.py`), the data-update
coordinator (`__init__.py`) and the cover command adapter (`cover.py`),
with theorems checking the specification's claims against the code.

Python values flowing through `_xml_to_dict` are dynamically typed
(strings, ints, lists, dicts); we embed them as the inductive `PyVal`.
Python dicts preserve insertion order and have unique keys, so they are
embedded as association lists built only through `insertTag`.
-/

namespace EZone

/-- A dynamically-typed Python value as produced by the EZone client:
a string, an int, a list, or an insertion-ordered dict. -/
inductive PyVal where
  | str (s : String)
  | int (n : Int)
  | list (xs : List PyVal)
  | dict (entries : List (String × PyVal))
deriving Repr

/-- `isinstance(v, list)` check used by `_xml_to_dict`'s promotion rule. -/
def PyVal.isList : PyVal → Bool
  | .list _ => true
  | _ => false

/-- An `xml.etree.ElementTree` element: a tag, optional text, and the
list of child elements in document order. -/
inductive XmlElem where
  | node (tag : String) (text : Option String) (children : List XmlElem)
deriving Repr

/-- `element.tag`. -/
def XmlElem.tag : XmlElem → String
  | .node t _ _ => t

/-- `element.text`. -/
def XmlElem.text : XmlElem → Option String
  | .node _ t _ => t

/-- The children of the element, in document order (iteration order). -/
def XmlElem.children : XmlElem → List XmlElem
  | .node _ _ cs => cs

/-- `str.strip()` on the character list: drop leading and trailing
whitespace (ASCII whitespace; Python also strips other Unicode
whitespace, which does not occur in this controller's XML). -/
def stripList (l : List Char) : List Char :=
  ((l.dropWhile Char.isWhitespace).reverse.dropWhile Char.isWhitespace).reverse

/-- Python `str.strip()`. -/
def pyStrip (s : String) : String :=
  ⟨stripList s.data⟩

/-- ASCII decimal digit test. -/
def isDigit (c : Char) : Bool :=
  '0' ≤ c && c ≤ '9'

/-- Accumulate a run of decimal digits left to right; `none` on any
non-digit. -/
def digitsToNat (acc : Nat) : List Char → Option Nat
  | [] => some acc
  | c :: cs =>
    if isDigit c then digitsToNat (acc * 10 + (c.toNat - '0'.toNat)) cs else none

/-- Python `int(s)` on a string: strip whitespace, optional sign, decimal
digits (`ValueError` → `none`; Python's digit-group underscores do not
occur in this controller's data and are omitted). -/
def pyInt (s : String) : Option Int :=
  match (pyStrip s).data with
  | [] => none
  | '-' :: cs =>
    match cs with
    | [] => none
    | _ => (digitsToNat 0 cs).map (fun n => -(n : Int))
  | '+' :: cs =>
    match cs with
    | [] => none
    | _ => (digitsToNat 0 cs).map (fun n => (n : Int))
  | cs => (digitsToNat 0 cs).map (fun n => (n : Int))

/-- Python dict lookup `d[k]` / `k in d` on the association-list embedding
(keys are unique, so first match is the match). -/
def plookup (key : String) : List (String × PyVal) → Option PyVal
  | [] => none
  | (k, v) :: rest => if k = key then some v else plookup key rest

/-- Python dict assignment `d[k] = v` for a key already present:
replaces the value in place, keeping insertion order. -/
def setKey (key : String) (v : PyVal) : List (String × PyVal) → List (String × PyVal)
  | [] => []
  | (k, w) :: rest => if k = key then (k, v) :: rest else (k, w) :: setKey key v rest

/-- The body of `_xml_to_dict`'s repeated-tag handling once the tag is
known to be present: `if not isinstance(result[tag], list): result[tag] =
[result[tag]]` then `result[tag].append(child_data)`. -/
def promote (old v : PyVal) : PyVal :=
  match old with
  | .list xs => .list (xs ++ [v])
  | _ => .list [old, v]

/-- One iteration of `_xml_to_dict`'s child loop: insert `v` under `tag`
into `result`, promoting to a list when the tag repeats. -/
def insertTag (result : List (String × PyVal)) (tag : String) (v : PyVal) :
    List (String × PyVal) :=
  match plookup tag result with
  | some old => setKey tag (promote old v) result
  | none => result ++ [(tag, v)]

/-- Truthiness of `element.text and element.text.strip()`:
text is not `None`, not empty, and not whitespace-only. -/
def textTruthy : Option String → Bool
  | none => false
  | some s => s ≠ "" && pyStrip s ≠ ""

mutual

/-- `ezone_api._xml_to_dict`: a node with no child elements and non-empty
stripped text collapses to that stripped text; otherwise the children are
folded into a dict keyed by tag, repeated tags promoting to lists. -/
def _xml_to_dict : XmlElem → PyVal
  | .node _ text children =>
    if textTruthy text && children.isEmpty then
      .str (pyStrip (text.getD ""))
    else
      .dict (_xml_children children [])
termination_by e => sizeOf e

/-- The `for child in element` loop of `_xml_to_dict`, with `result`
as the accumulator. -/
def _xml_children : List XmlElem → List (String × PyVal) → List (String × PyVal)
  | [], result => result
  | c :: cs, result => _xml_children cs (insertTag result c.tag (_xml_to_dict c))
termination_by cs _ => sizeOf cs

end

/-! ### Retry engine (`async_get_system_data` / `async_get_zone_data`)

Each loop iteration performs one GET + parse. We embed the outcome of a
single iteration as an `Attempt` oracle indexed by the attempt number
(1-based, the value of `count` inside the iteration):
* `ok v` — status 200 and the XML parsed, yielding `v`;
* `transport e` — one of the `aiohttp.ClientError` family or
  `ConnectionResetError`, recorded as `error = err` (its string form);
* `timeout` — `asyncio.TimeoutError`, recorded as "Connection timed out.";
* `badStatus` — `assert resp.status == 200` failed (`AssertionError`),
  recorded and `break`;
* `parseFail e` — any other exception (in practice the `ApiError` raised
  by `_parse_system_xml`/`_parse_zone_xml` on bad XML, whose string form
  is "Invalid XML response: ..."), recorded as an XML parsing error and
  `break`. -/

/-- Outcome of one iteration of the read retry loop. -/
inductive Attempt (α : Type) where
  | ok (v : α)
  | transport (err : String)
  | timeout
  | badStatus
  | parseFail (err : String)

/-- Observable I/O events of the retry loop: an attempt (GET) carrying
its 1-based number, and the fixed `asyncio.sleep(1)`. -/
inductive Ev where
  | att (n : Nat)
  | sleep1
deriving Repr, DecidableEq

/-- The `ApiError` raised by a read: the attempt count at which the loop
ended and the final value of the `error` variable. -/
structure RetryError where
  attempts : Nat
  lastError : String
deriving Repr, DecidableEq

/-- `str(error)` as interpolated into the raised message (`error` starts
out as Python `None`). -/
def errText : Option String → String
  | none => "None"
  | some s => s

/-- The message of the raised `ApiError`:
`f"No valid response after {count} failed attempt{['','s'][count>1]}. Last error was: {error}"`. -/
def RetryError.message (e : RetryError) : String :=
  "No valid response after " ++ toString e.attempts ++ " failed attempt" ++
    (if e.attempts > 1 then "s" else "") ++ ". Last error was: " ++ e.lastError

/-- The `while count < retry` loop shared by `async_get_system_data` and
`async_get_zone_data`, with `fuel = retry - count` as the structural
measure; returns the result together with the trace of attempts and
sleeps. A transient failure stores `error` and falls through to
`await asyncio.sleep(1)`; `badStatus`/`parseFail` store `error` and
`break`, raising immediately. -/
def retryLoop {α : Type} (f : Nat → Attempt α) :
    Nat → Nat → Option String → Except RetryError α × List Ev
  | 0, count, error => (.error ⟨count, errText error⟩, [])
  | fuel + 1, count, _error =>
    match f (count + 1) with
    | .ok v => (.ok v, [.att (count + 1)])
    | .badStatus => (.error ⟨count + 1, "Response status not 200."⟩, [.att (count + 1)])
    | .parseFail e =>
      (.error ⟨count + 1, "XML parsing error: " ++ e⟩, [.att (count + 1)])
    | .transport e =>
      let r := retryLoop f fuel (count + 1) (some e)
      (r.1, .att (count + 1) :: .sleep1 :: r.2)
    | .timeout =>
      let r := retryLoop f fuel (count + 1) (some "Connection timed out.")
      (r.1, .att (count + 1) :: .sleep1 :: r.2)

/-- A read wrapped in the retry loop, starting from `count = 0`,
`error = None`. `retry` defaults to 5 at the call sites in the repo. -/
def readWithRetry {α : Type} (f : Nat → Attempt α) (retry : Nat) :
    Except RetryError α × List Ev :=
  retryLoop f retry 0 none

/-- `ezone_api.async_get_system_data`, abstracted over the per-attempt
outcome oracle `f` (GET `/getSystemData` + `_parse_system_xml`). -/
def async_get_system_data (f : Nat → Attempt PyVal) (retry : Nat) :
    Except RetryError PyVal × List Ev :=
  readWithRetry f retry

/-- `ezone_api.async_get_zone_data`, abstracted over the per-zone
per-attempt outcome oracle `zf` (GET `/getZoneData?zone=` +
`_parse_zone_xml`, which already stamps `zone_number` into the value). -/
def async_get_zone_data (zf : Nat → Nat → Attempt PyVal) (zone : Nat) (retry : Nat) :
    Except RetryError PyVal × List Ev :=
  readWithRetry (zf zone) retry

/-- Whether an attempt outcome is retried (transport-layer) rather than
fatal (`break`) or success. -/
def Attempt.isTransient {α : Type} : Attempt α → Bool
  | .transport _ => true
  | .timeout => true
  | _ => false

/-- The `error` string a transient outcome leaves behind. -/
def Attempt.transientMsg {α : Type} : Attempt α → Option String
  | .transport e => some e
  | .timeout => some "Connection timed out."
  | _ => none

/-- The `error` string a fatal (`break`) outcome leaves behind. -/
def Attempt.fatalMsg {α : Type} : Attempt α → Option String
  | .badStatus => some "Response status not 200."
  | .parseFail e => some ("XML parsing error: " ++ e)
  | _ => none

/-- The expected trace of `k` consecutive transient attempts starting at
attempt number `start`: each attempt is followed by the 1-unit sleep. -/
def tTrace (start : Nat) : Nat → List Ev
  | 0 => []
  | k + 1 => .att start :: .sleep1 :: tTrace (start + 1) k

/-! ### `async_get_all_data` -/

/-- `v.get(key, default)`: dict lookup with default; on a non-dict value
Python raises (`AttributeError`), which the enclosing `except Exception`
turns into the wrapping `ApiError`. -/
def pyGetD (v : PyVal) (key : String) (default : PyVal) : Except String PyVal :=
  match v with
  | .dict entries => .ok ((plookup key entries).getD default)
  | _ => .error "AttributeError: object has no attribute get"

/-- Python `int(x)` restricted to the shapes that occur here: an int is
returned as is, a string is parsed as a (sign-prefixed) decimal numeral
(`ValueError` otherwise), anything else is a `TypeError`. -/
def pyIntOf : PyVal → Except String Int
  | .int n => .ok n
  | .str s =>
    match pyInt s with
    | some n => .ok n
    | none => .error "ValueError: invalid literal for int"
  | _ => .error "TypeError: int argument must be a string or a number"

/-- `int(system_data.get("system", {}).get("unitcontrol", {}).get("numberOfZones", 0))`. -/
def extractNumZones (system_data : PyVal) : Except String Int := do
  let a ← pyGetD system_data "system" (.dict [])
  let b ← pyGetD a "unitcontrol" (.dict [])
  let c ← pyGetD b "numberOfZones" (.int 0)
  pyIntOf c

/-- Observable fetches issued by `async_get_all_data`, in order. -/
inductive FetchEv where
  | fetchSystem
  | fetchZone (n : Nat)
deriving Repr, DecidableEq

/-- The per-attempt oracles for one `async_get_all_data` call: the system
read and, for each zone number, the zone read. -/
structure AllEnv where
  sysAtt : Nat → Attempt PyVal
  zoneAtt : Nat → Nat → Attempt PyVal

/-- One pass of the `for zone_num in range(1, num_zones + 1)` body:
`zones_data[str(zone_num)] = await self.async_get_zone_data(zone_num)`,
with `except ApiError: continue` dropping the zone
(`async_get_zone_data` raises nothing but `ApiError`). -/
def zoneFetchResult (env : AllEnv) (retry zone : Nat) : Option PyVal :=
  match (async_get_zone_data env.zoneAtt zone retry).1 with
  | .ok zone_data => some zone_data
  | .error _ => none

/-- The `zones_data` dict accumulated over a list of zone numbers by a
per-zone fetch `g`: successful zones keyed by `str(zone_num)` in loop
order, failed zones skipped. -/
def zonesFrom (g : Nat → Option PyVal) (l : List Nat) : List (String × PyVal) :=
  l.filterMap (fun j => (g j).map (fun z => (toString j, z)))

/-- The `zones_data` dict of one `async_get_all_data` call:
`range(1, num_zones + 1)` is `List.range' 1 num_zones` (empty when
`num_zones ≤ 0`). -/
def allDataZones (env : AllEnv) (retry : Nat) (num_zones : Int) :
    List (String × PyVal) :=
  zonesFrom (zoneFetchResult env retry) (List.range' 1 num_zones.toNat)

/-- `ezone_api.async_get_all_data`: fetch system data (retry-wrapped),
read `numberOfZones` from it, fetch zones `1..N` sequentially
(retry-wrapped, each via `async_get_zone_data`), skipping zones whose
fetch raised `ApiError`; any other exception in the body is wrapped as
`ApiError(f"Failed to get all data: {err}")`. Returns the result and the
trace of fetches issued. -/
def async_get_all_data (env : AllEnv) (retry : Nat) :
    Except String PyVal × List FetchEv :=
  match (async_get_system_data env.sysAtt retry).1 with
  | .error e => (.error ("Failed to get all data: " ++ e.message), [.fetchSystem])
  | .ok system_data =>
    match extractNumZones system_data with
    | .error e => (.error ("Failed to get all data: " ++ e), [.fetchSystem])
    | .ok num_zones =>
      let zones_data := allDataZones env retry num_zones
      match pyGetD system_data "system" (.dict []) with
      | .error e =>
        (.error ("Failed to get all data: " ++ e),
          .fetchSystem :: (List.range' 1 num_zones.toNat).map FetchEv.fetchZone)
      | .ok sys =>
        (.ok (.dict [("system", sys), ("zones", .dict zones_data)]),
          .fetchSystem :: (List.range' 1 num_zones.toNat).map FetchEv.fetchZone)

/-! ### Write operations (single unretried GET) -/

/-- An HTTP GET request: endpoint path and query parameters in the order
they are passed (Python kwargs keep call order). Parameter values are
their string forms on the wire. -/
structure Request where
  path : String
  params : List (String × String)
deriving Repr, DecidableEq

/-- Outcome of the single GET a write operation issues. -/
inductive HttpResp where
  | resp (status : Nat) (body : String)
  | netErr (err : String)
deriving Repr, DecidableEq

/-- The `ApiError` raised by a write: the operation's context string and
`str(err)` of the caught exception (empty for the bare `AssertionError`
from `assert resp.status == 200`). -/
structure WriteError where
  context : String
  cause : String
deriving Repr, DecidableEq

/-- The shared body of every write operation: one GET inside
`try: ... assert resp.status == 200; return await resp.text()
except Exception as err: raise ApiError(f"{context}: {err}")`.
Returns the result and the list of requests issued. -/
def singleGet (context : String) (req : Request) (r : HttpResp) :
    Except WriteError String × List Request :=
  match r with
  | .resp status body =>
    if status = 200 then (.ok body, [req]) else (.error ⟨context, ""⟩, [req])
  | .netErr e => (.error ⟨context, e⟩, [req])

/-- `ezone_api.async_set_system_data(**params)`. -/
def async_set_system_data (params : List (String × String)) (r : HttpResp) :
    Except WriteError String × List Request :=
  singleGet "Failed to set system data" ⟨"/setSystemData", params⟩ r

/-- `ezone_api.async_set_zone_data(zone, **params)`:
`zone_params = {"zone": zone, **params}`. -/
def async_set_zone_data (zone : Int) (params : List (String × String)) (r : HttpResp) :
    Except WriteError String × List Request :=
  singleGet "Failed to set zone data" ⟨"/setZoneData", ("zone", toString zone) :: params⟩ r

/-- `ezone_api.async_set_zone_setting(zone, setting)`:
`zoneSetting=1 if setting else 0`. -/
def async_set_zone_setting (zone : Int) (setting : Bool) (r : HttpResp) :
    Except WriteError String × List Request :=
  async_set_zone_data zone [("zoneSetting", if setting then "1" else "0")] r

/-- `ezone_api.async_set_zone_percent(zone, percent)`:
`userPercentSetting=percent, zoneSetting=1`. -/
def async_set_zone_percent (zone : Int) (percent : Int) (r : HttpResp) :
    Except WriteError String × List Request :=
  async_set_zone_data zone
    [("userPercentSetting", toString percent), ("zoneSetting", "1")] r

/-- `ezone_api.async_change_system_name(name)`: GET `/changeName`. -/
def async_change_system_name (name : String) (r : HttpResp) :
    Except WriteError String × List Request :=
  singleGet "Failed to change system name" ⟨"/changeName", [("name", name)]⟩ r

/-- `ezone_api.async_set_zone_timer(...)`: builds `params` starting from
`scheduleStatus`, appending each provided start/end component. -/
def async_set_zone_timer (start_hour start_min end_hour end_min : Option Int)
    (schedule_status : Int) (r : HttpResp) :
    Except WriteError String × List Request :=
  let params := [("scheduleStatus", toString schedule_status)]
  let params := match start_hour with
    | some h => params ++ [("startTimeHours", toString h)]
    | none => params
  let params := match start_min with
    | some m => params ++ [("startTimeMinutes", toString m)]
    | none => params
  let params := match end_hour with
    | some h => params ++ [("endTimeHours", toString h)]
    | none => params
  let params := match end_min with
    | some m => params ++ [("endTimeMinutes", toString m)]
    | none => params
  singleGet "Failed to set zone timer" ⟨"/setZoneTimer", params⟩ r

/-! ### Polling coordinator (`EZoneDataUpdateCoordinator`) -/

/-- `EZoneDataUpdateCoordinator._async_update_data`: returns the
`async_get_all_data` result, converting `ApiError` into
`UpdateFailed(f"Error communicating with API: {err}")` (errors embedded
as their message strings). -/
def _async_update_data (fetch : Except String PyVal) : Except String PyVal :=
  match fetch with
  | .ok data => .ok data
  | .error err => .error ("Error communicating with API: " ++ err)

/-- The coordinator's state: the last good snapshot, if any
(`coordinator.data`, `None` before the first successful refresh). -/
structure Coordinator where
  data : Option PyVal

/-- Outcome reported for one refresh cycle. -/
inductive RefreshOutcome where
  | success
  | failed (err : String)

/-- Modelled from the spec: the host framework's `DataUpdateCoordinator`
refresh cycle is not under `src/` (only `_async_update_data` is); per
spec §4.5, `refresh()` runs the update method, on success replaces the
snapshot wholesale, and on failure retains the previous snapshot (none
exists yet on a first-refresh failure, whose error is surfaced). -/
def Coordinator.refresh (c : Coordinator) (fetch : Except String PyVal) :
    Coordinator × RefreshOutcome :=
  match _async_update_data fetch with
  | .ok data => (⟨some data⟩, .success)
  | .error e => (c, .failed e)

/-- The snapshot consumers read (`coordinator.data`). -/
def Coordinator.currentSnapshot (c : Coordinator) : Option PyVal :=
  c.data

/-! ### Cover command adapter (`cover.py`, `EZoneZoneCover`) -/

/-- Observable actions of a cover command method: the write request it
issues and the `coordinator.async_request_refresh()` it triggers. -/
inductive CoverEv where
  | write (req : Request)
  | refreshReq
deriving Repr, DecidableEq

/-- Whether a cover event is a refresh request. -/
def CoverEv.isRefreshReq : CoverEv → Bool
  | .refreshReq => true
  | _ => false

/-- Number of refresh requests in a command's trace. -/
def countRefresh (tr : List CoverEv) : Nat :=
  (tr.filter CoverEv.isRefreshReq).length

/-- The write requests in a command's trace. -/
def writeReqs (tr : List CoverEv) : List Request :=
  tr.filterMap (fun e => match e with | .write req => some req | .refreshReq => none)

/-- `EZoneZoneCover.async_open_cover`: `await
api.async_set_zone_setting(zone, True)` then `await
coordinator.async_request_refresh()`; a raised `ApiError` propagates
before the refresh line runs. The coordinator state is passed through
untouched — the command never writes the snapshot itself. -/
def async_open_cover (zone : Int) (r : HttpResp) (c : Coordinator) :
    Except WriteError Unit × List CoverEv × Coordinator :=
  match async_set_zone_setting zone true r with
  | (.ok _, reqs) => (.ok (), reqs.map CoverEv.write ++ [.refreshReq], c)
  | (.error e, reqs) => (.error e, reqs.map CoverEv.write, c)

/-- `EZoneZoneCover.async_close_cover`: like open with `setting = False`. -/
def async_close_cover (zone : Int) (r : HttpResp) (c : Coordinator) :
    Except WriteError Unit × List CoverEv × Coordinator :=
  match async_set_zone_setting zone false r with
  | (.ok _, reqs) => (.ok (), reqs.map CoverEv.write ++ [.refreshReq], c)
  | (.error e, reqs) => (.error e, reqs.map CoverEv.write, c)

/-- `EZoneZoneCover.async_set_cover_position`: returns with no action if
no position was passed; `position == 0` issues the close write
(`zoneSetting=0`), otherwise the percent write; then one refresh. -/
def async_set_cover_position (zone : Int) (position : Option Int) (r : HttpResp)
    (c : Coordinator) : Except WriteError Unit × List CoverEv × Coordinator :=
  match position with
  | none => (.ok (), [], c)
  | some p =>
    match (if p = 0 then async_set_zone_setting zone false r
           else async_set_zone_percent zone p r) with
    | (.ok _, reqs) => (.ok (), reqs.map CoverEv.write ++ [.refreshReq], c)
    | (.error e, reqs) => (.error e, reqs.map CoverEv.write, c)

/-- `Except.isOk` for stating success/failure splits. -/
def exceptOk {ε α : Type} : Except ε α → Bool
  | .ok _ => true
  | .error _ => false

/-- The effect of `insertTag` on the binding of one key: absent key gets
the value, present key gets the promotion. -/
def combineStep (o : Option PyVal) (v : PyVal) : PyVal :=
  match o with
  | none => v
  | some old => promote old v

/-- Iterated `combineStep`: the binding of a key after inserting a whole
run of values under it, starting from binding `o`. -/
def combineAll (o : Option PyVal) : List PyVal → Option PyVal
  | [] => o
  | v :: vs => combineAll (some (combineStep o v)) vs

/-- A sample parsed `/getSystemData` payload advertising 5 zones, used to
exercise the aggregation theorems on concrete inputs. -/
def sdSample : PyVal :=
  .dict [("system", .dict [("unitcontrol", .dict [("numberOfZones", .str "5")])])]

/-- The `system` sub-dict of `sdSample`. -/
def sysSample : PyVal :=
  .dict [("unitcontrol", .dict [("numberOfZones", .str "5")])]

/-- A sample environment: the system fetch succeeds at once with
`sdSample`; zone 3's fetch fails with a transport error on every attempt
(exhausting any budget), every other zone succeeds at once. -/
def envSample : AllEnv :=
  ⟨fun _ => .ok sdSample,
   fun zone _ => if zone = 3 then .transport "Connection reset" else .ok (.str "zone")⟩

/-! ## Lemmas about the XML normalizer -/

theorem plookup_setKey (k key : String) (v : PyVal) (l : List (String × PyVal)) :
    plookup k (setKey key v l) =
      if key = k then (plookup k l).map (fun _ => v) else plookup k l := by
  induction l with
  | nil => simp [setKey, plookup]
  | cons hd tl ih =>
    obtain ⟨k', w⟩ := hd
    by_cases h1 : k' = key
    · subst h1
      by_cases h2 : k' = k
      · subst h2; simp [setKey, plookup]
      · simp [setKey, plookup, h2, Ne.symm h2]
    · by_cases h2 : k' = k
      · subst h2
        have : key ≠ k' := fun h => h1 h.symm
        simp [setKey, plookup, h1, this]
      · simp [setKey, plookup, h1, h2, ih]

theorem plookup_append (k key : String) (v : PyVal) (l : List (String × PyVal)) :
    plookup k (l ++ [(key, v)]) =
      match plookup k l with
      | some w => some w
      | none => if key = k then some v else none := by
  induction l with
  | nil => simp [plookup]
  | cons hd tl ih =>
    obtain ⟨k', w⟩ := hd
    by_cases h2 : k' = k
    · subst h2; simp [plookup]
    · simp [plookup, h2, ih]

theorem plookup_insertTag (T tag : String) (v : PyVal) (l : List (String × PyVal)) :
    plookup T (insertTag l tag v) =
      if tag = T then some (combineStep (plookup T l) v) else plookup T l := by
  unfold insertTag
  cases h : plookup tag l with
  | some old =>
    rw [plookup_setKey]
    by_cases ht : tag = T
    · subst ht; simp [h, combineStep]
    · simp [ht]
  | none =>
    rw [plookup_append]
    by_cases ht : tag = T
    · subst ht; simp [h, combineStep]
    · cases hT : plookup T l <;> simp [ht, hT]

theorem plookup_xml_children (T : String) (cs : List XmlElem)
    (acc : List (String × PyVal)) :
    plookup T (_xml_children cs acc) =
      combineAll (plookup T acc)
        ((cs.filter (fun c => c.tag == T)).map _xml_to_dict) := by
  induction cs generalizing acc with
  | nil => simp [_xml_children, combineAll]
  | cons c cs ih =>
    rw [_xml_children, ih, plookup_insertTag]
    by_cases h : c.tag = T
    · simp [List.filter_cons, h, combineAll]
    · simp [List.filter_cons, h]

theorem combineAll_some_list (xs vs : List PyVal) :
    combineAll (some (.list xs)) vs = some (.list (xs ++ vs)) := by
  induction vs generalizing xs with
  | nil => simp [combineAll]
  | cons v vs ih =>
    rw [combineAll, combineStep, promote, ih]
    simp

theorem combineAll_none_single (v : PyVal) :
    combineAll none [v] = some v :=
  rfl

theorem combineAll_none_pair (v1 v2 : PyVal) (vs : List PyVal)
    (h : v1.isList = false) :
    combineAll none (v1 :: v2 :: vs) = some (.list (v1 :: v2 :: vs)) := by
  have hp : promote v1 v2 = .list [v1, v2] := by
    cases v1 <;> simp_all [promote, PyVal.isList]
  rw [combineAll, combineStep, combineAll, combineStep, hp, combineAll_some_list]
  simp

theorem xml_to_dict_not_list (e : XmlElem) : (_xml_to_dict e).isList = false := by
  cases e with
  | node tag text children =>
    rw [_xml_to_dict]
    split <;> simp [PyVal.isList]

/-- Shared leaf evaluation: a childless node with non-whitespace text
collapses to the stripped text. -/
theorem xml_leaf (tag : String) (s : String) (h : pyStrip s ≠ "") :
    _xml_to_dict (.node tag (some s) []) = .str (pyStrip s) := by
  have hne : s ≠ "" := by
    intro he
    subst he
    exact h rfl
  rw [_xml_to_dict]
  simp [textTruthy, hne, h]

/-- Shared non-leaf evaluation: a node with children folds them into a
dict, whatever its text. -/
theorem xml_node_dict (tag : String) (text : Option String) (c : XmlElem)
    (cs : List XmlElem) :
    _xml_to_dict (.node tag text (c :: cs)) = .dict (_xml_children (c :: cs) []) := by
  rw [_xml_to_dict]
  simp

/-- C4: `_xml_to_dict` collapses a childless node with non-empty stripped
text to exactly that stripped text; a node with children becomes a
mapping keyed by child tag; a tag occurring exactly once under a parent
maps to that child's scalar value (never a one-element sequence), and a
tag occurring two or more times maps to the sequence of each occurrence's
value in document order (two occurrences give a two-element sequence,
three give three). -/
theorem claim_C4 :
    (∀ (tag s : String), pyStrip s ≠ "" →
       _xml_to_dict (.node tag (some s) []) = .str (pyStrip s))
    ∧ (∀ (tag : String) (text : Option String) (cs : List XmlElem) (T : String),
        cs ≠ [] →
        _xml_to_dict (.node tag text cs) = .dict (_xml_children cs []) ∧
        (cs.filter (fun c => c.tag == T) = [] →
           plookup T (_xml_children cs []) = none) ∧
        (∀ c, cs.filter (fun c' => c'.tag == T) = [c] →
           plookup T (_xml_children cs []) = some (_xml_to_dict c) ∧
           (_xml_to_dict c).isList = false) ∧
        (∀ c1 c2 rest, cs.filter (fun c' => c'.tag == T) = c1 :: c2 :: rest →
           plookup T (_xml_children cs []) =
             some (.list ((c1 :: c2 :: rest).map _xml_to_dict)))) := by
  constructor
  · exact xml_leaf
  · intro tag text cs T hcs
    obtain ⟨c0, cs0, rfl⟩ := List.exists_cons_of_ne_nil hcs
    refine ⟨xml_node_dict .., ?_, ?_, ?_⟩
    · intro hf
      rw [plookup_xml_children, hf]
      simp [plookup, combineAll]
    · intro c hf
      rw [plookup_xml_children, hf]
      simp only [List.map, plookup]
      exact ⟨combineAll_none_single _, xml_to_dict_not_list c⟩
    · intro c1 c2 rest hf
      rw [plookup_xml_children, hf]
      simp only [List.map, plookup]
      exact combineAll_none_pair _ _ _ (xml_to_dict_not_list c1)

/-- Witness for C4 at a concrete document: `<r><a>1</a><b>2</b><b>3</b>
<b>4</b></r>` and the leaf `<temp> 24 </temp>`. -/
theorem claim_C4_witness :
    _xml_to_dict (.node "temp" (some " 24 ") []) = .str "24" ∧
    plookup "a" (_xml_children
      [.node "a" (some "1") [], .node "b" (some "2") [],
       .node "b" (some "3") [], .node "b" (some "4") []] []) =
      some (.str "1") ∧
    plookup "b" (_xml_children
      [.node "a" (some "1") [], .node "b" (some "2") [],
       .node "b" (some "3") [], .node "b" (some "4") []] []) =
      some (.list [.str "2", .str "3", .str "4"]) := by
  refine ⟨claim_C4.1 "temp" " 24 " (by decide), ?_, ?_⟩
  · have h := ((claim_C4.2 "r" none
      [.node "a" (some "1") [], .node "b" (some "2") [],
       .node "b" (some "3") [], .node "b" (some "4") []] "a"
      (by simp)).2.2.1 (.node "a" (some "1") []) rfl).1
    rw [h, xml_leaf "a" "1" (by decide)]
    rfl
  · have h := (claim_C4.2 "r" none
      [.node "a" (some "1") [], .node "b" (some "2") [],
       .node "b" (some "3") [], .node "b" (some "4") []] "b"
      (by simp)).2.2.2 (.node "b" (some "2") []) (.node "b" (some "3") [])
      [.node "b" (some "4") []] rfl
    rw [h]
    rw [show ([XmlElem.node "b" (some "2") [], .node "b" (some "3") [],
          .node "b" (some "4") []].map _xml_to_dict)
        = [.str "2", .str "3", .str "4"] from by
      simp only [List.map]
      rw [xml_leaf "b" "2" (by decide), xml_leaf "b" "3" (by decide),
        xml_leaf "b" "4" (by decide)]
      rfl]

/-- C10: an element with no children whose text is absent or
whitespace-only normalizes to the empty mapping — not a leaf string, not
a sequence, and not an error. -/
theorem claim_C10 (tag : String) (text : Option String)
    (h : ∀ s, text = some s → pyStrip s = "") :
    _xml_to_dict (.node tag text []) = .dict [] := by
  have ht : textTruthy text = false := by
    cases text with
    | none => rfl
    | some s => simp [textTruthy, h s rfl]
  rw [_xml_to_dict]
  simp [ht, _xml_children]

/-- Witness for C10: absent text and whitespace-only text. -/
theorem claim_C10_witness :
    _xml_to_dict (.node "dead" none []) = .dict [] ∧
    _xml_to_dict (.node "blank" (some " \n ") []) = .dict [] :=
  ⟨claim_C10 "dead" none (fun _ hs => by cases hs),
   claim_C10 "blank" (some " \n ") (fun s hs => by cases hs; decide)⟩

/-! ## Lemmas about the retry loop -/

/-- If attempts `count+1 .. count+k` are transient and attempt
`count+k+1` succeeds within the remaining budget, the loop returns the
parsed value; the trace is the sleeps-interleaved transient run followed
by the successful attempt. -/
theorem retryLoop_success {α : Type} (f : Nat → Attempt α) (v : α) :
    ∀ (k fuel count : Nat) (error : Option String),
      k + 1 ≤ fuel →
      (∀ i, 1 ≤ i → i < k + 1 → (f (count + i)).isTransient = true) →
      f (count + k + 1) = .ok v →
      retryLoop f fuel count error =
        (.ok v, tTrace (count + 1) k ++ [.att (count + k + 1)]) := by
  intro k
  induction k with
  | zero =>
    intro fuel count error hfuel _ht hok
    obtain ⟨fu, rfl⟩ : ∃ fu, fuel = fu + 1 := ⟨fuel - 1, by omega⟩
    rw [retryLoop, hok]
    simp [tTrace]
  | succ k ih =>
    intro fuel count error hfuel ht hok
    obtain ⟨fu, rfl⟩ : ∃ fu, fuel = fu + 1 := ⟨fuel - 1, by omega⟩
    have h1 : (f (count + 1)).isTransient = true := ht 1 (by omega) (by omega)
    have hshift : ∀ i, 1 ≤ i → i < k + 1 →
        (f (count + 1 + i)).isTransient = true := by
      intro i hi1 hi2
      rw [show count + 1 + i = count + (i + 1) from by omega]
      exact ht (i + 1) (by omega) (by omega)
    have hok' : f (count + 1 + k + 1) = .ok v := by
      rw [show count + 1 + k + 1 = count + (k + 1) + 1 from by omega]
      exact hok
    cases hf1 : f (count + 1) with
    | ok w => rw [hf1] at h1; simp [Attempt.isTransient] at h1
    | badStatus => rw [hf1] at h1; simp [Attempt.isTransient] at h1
    | parseFail e => rw [hf1] at h1; simp [Attempt.isTransient] at h1
    | transport e =>
      rw [retryLoop, hf1]
      dsimp only
      rw [ih fu (count + 1) (some e) (by omega) hshift hok']
      rw [show count + 1 + k + 1 = count + (k + 1) + 1 from by omega]
      simp [tTrace]
    | timeout =>
      rw [retryLoop, hf1]
      dsimp only
      rw [ih fu (count + 1) (some "Connection timed out.") (by omega) hshift hok']
      rw [show count + 1 + k + 1 = count + (k + 1) + 1 from by omega]
      simp [tTrace]

/-- If attempts `count+1 .. count+k` are transient and attempt
`count+k+1` is fatal (non-200 or parse failure) within the remaining
budget, the loop raises at once with that attempt count and the fatal
cause, issuing no further attempt. -/
theorem retryLoop_fatal {α : Type} (f : Nat → Attempt α) (m : String) :
    ∀ (k fuel count : Nat) (error : Option String),
      k + 1 ≤ fuel →
      (∀ i, 1 ≤ i → i < k + 1 → (f (count + i)).isTransient = true) →
      (f (count + k + 1)).fatalMsg = some m →
      retryLoop f fuel count error =
        (.error ⟨count + k + 1, m⟩, tTrace (count + 1) k ++ [.att (count + k + 1)]) := by
  intro k
  induction k with
  | zero =>
    intro fuel count error hfuel _ht hfat
    obtain ⟨fu, rfl⟩ : ∃ fu, fuel = fu + 1 := ⟨fuel - 1, by omega⟩
    cases hf1 : f (count + 1) with
    | ok w => rw [hf1] at hfat; simp [Attempt.fatalMsg] at hfat
    | transport e => rw [hf1] at hfat; simp [Attempt.fatalMsg] at hfat
    | timeout => rw [hf1] at hfat; simp [Attempt.fatalMsg] at hfat
    | badStatus =>
      rw [hf1] at hfat
      simp only [Attempt.fatalMsg, Option.some.injEq] at hfat
      rw [retryLoop, hf1]
      dsimp only
      rw [hfat]
      simp [tTrace]
    | parseFail e =>
      rw [hf1] at hfat
      simp only [Attempt.fatalMsg, Option.some.injEq] at hfat
      rw [retryLoop, hf1]
      dsimp only
      rw [hfat]
      simp [tTrace]
  | succ k ih =>
    intro fuel count error hfuel ht hfat
    obtain ⟨fu, rfl⟩ : ∃ fu, fuel = fu + 1 := ⟨fuel - 1, by omega⟩
    have h1 : (f (count + 1)).isTransient = true := ht 1 (by omega) (by omega)
    have hshift : ∀ i, 1 ≤ i → i < k + 1 →
        (f (count + 1 + i)).isTransient = true := by
      intro i hi1 hi2
      rw [show count + 1 + i = count + (i + 1) from by omega]
      exact ht (i + 1) (by omega) (by omega)
    have hfat' : (f (count + 1 + k + 1)).fatalMsg = some m := by
      rw [show count + 1 + k + 1 = count + (k + 1) + 1 from by omega]
      exact hfat
    cases hf1 : f (count + 1) with
    | ok w => rw [hf1] at h1; simp [Attempt.isTransient] at h1
    | badStatus => rw [hf1] at h1; simp [Attempt.isTransient] at h1
    | parseFail e => rw [hf1] at h1; simp [Attempt.isTransient] at h1
    | transport e =>
      rw [retryLoop, hf1]
      dsimp only
      rw [ih fu (count + 1) (some e) (by omega) hshift hfat']
      rw [show count + 1 + k + 1 = count + (k + 1) + 1 from by omega]
      simp [tTrace]
    | timeout =>
      rw [retryLoop, hf1]
      dsimp only
      rw [ih fu (count + 1) (some "Connection timed out.") (by omega) hshift hfat']
      rw [show count + 1 + k + 1 = count + (k + 1) + 1 from by omega]
      simp [tTrace]

/-- If every attempt in the budget is transient, the loop exhausts the
budget and raises with the full attempt count and the last transient
error. -/
theorem retryLoop_exhaust {α : Type} (f : Nat → Attempt α) :
    ∀ (fuel count : Nat) (error : Option String),
      (∀ i, 1 ≤ i → i ≤ fuel + 1 → (f (count + i)).isTransient = true) →
      retryLoop f (fuel + 1) count error =
        (.error ⟨count + fuel + 1, errText (f (count + fuel + 1)).transientMsg⟩,
          tTrace (count + 1) (fuel + 1)) := by
  intro fuel
  induction fuel with
  | zero =>
    intro count error ht
    have h1 : (f (count + 1)).isTransient = true := ht 1 (by omega) (by omega)
    cases hf1 : f (count + 1) with
    | ok w => rw [hf1] at h1; simp [Attempt.isTransient] at h1
    | badStatus => rw [hf1] at h1; simp [Attempt.isTransient] at h1
    | parseFail e => rw [hf1] at h1; simp [Attempt.isTransient] at h1
    | transport e =>
      rw [retryLoop, hf1]
      dsimp only
      rw [retryLoop]
      simp [tTrace, Attempt.transientMsg, errText, hf1]
    | timeout =>
      rw [retryLoop, hf1]
      dsimp only
      rw [retryLoop]
      simp [tTrace, Attempt.transientMsg, errText, hf1]
  | succ fuel ih =>
    intro count error ht
    have h1 : (f (count + 1)).isTransient = true := ht 1 (by omega) (by omega)
    have hshift : ∀ i, 1 ≤ i → i ≤ fuel + 1 →
        (f (count + 1 + i)).isTransient = true := by
      intro i hi1 hi2
      rw [show count + 1 + i = count + (i + 1) from by omega]
      exact ht (i + 1) (by omega) (by omega)
    cases hf1 : f (count + 1) with
    | ok w => rw [hf1] at h1; simp [Attempt.isTransient] at h1
    | badStatus => rw [hf1] at h1; simp [Attempt.isTransient] at h1
    | parseFail e => rw [hf1] at h1; simp [Attempt.isTransient] at h1
    | transport e =>
      rw [retryLoop, hf1]
      dsimp only
      rw [ih (count + 1) (some e) hshift]
      rw [show count + 1 + fuel + 1 = count + (fuel + 1) + 1 from by omega]
      simp [tTrace]
    | timeout =>
      rw [retryLoop, hf1]
      dsimp only
      rw [ih (count + 1) (some "Connection timed out.") hshift]
      rw [show count + 1 + fuel + 1 = count + (fuel + 1) + 1 from by omega]
      simp [tTrace]

/-- C2: for both read operations with attempt budget `r`, transport-layer
failures (connection error/reset, timeout) are each followed by the fixed
1-unit sleep and a further attempt; a success on attempt `k ≤ r` returns
the parsed value with the earlier failures invisible; a non-200 status or
parse failure on attempt `k` ends the loop at once with an error and no
further attempt; `r` consecutive transport failures raise an error
carrying the attempt count `r` and the last underlying error. -/
theorem claim_C2 (f : Nat → Attempt PyVal) (zf : Nat → Nat → Attempt PyVal)
    (zone : Nat) (r : Nat) :
    (∀ k v, 1 ≤ k → k ≤ r →
      (∀ i, 1 ≤ i → i < k → (f i).isTransient = true) → f k = .ok v →
      async_get_system_data f r = (.ok v, tTrace 1 (k - 1) ++ [.att k]))
    ∧ (∀ k v, 1 ≤ k → k ≤ r →
      (∀ i, 1 ≤ i → i < k → (zf zone i).isTransient = true) → zf zone k = .ok v →
      async_get_zone_data zf zone r = (.ok v, tTrace 1 (k - 1) ++ [.att k]))
    ∧ (∀ k m, 1 ≤ k → k ≤ r →
      (∀ i, 1 ≤ i → i < k → (f i).isTransient = true) → (f k).fatalMsg = some m →
      async_get_system_data f r = (.error ⟨k, m⟩, tTrace 1 (k - 1) ++ [.att k]))
    ∧ (∀ k m, 1 ≤ k → k ≤ r →
      (∀ i, 1 ≤ i → i < k → (zf zone i).isTransient = true) →
      (zf zone k).fatalMsg = some m →
      async_get_zone_data zf zone r = (.error ⟨k, m⟩, tTrace 1 (k - 1) ++ [.att k]))
    ∧ ((∀ i, 1 ≤ i → i ≤ r → (f i).isTransient = true) → 1 ≤ r →
      async_get_system_data f r =
        (.error ⟨r, errText (f r).transientMsg⟩, tTrace 1 r))
    ∧ ((∀ i, 1 ≤ i → i ≤ r → (zf zone i).isTransient = true) → 1 ≤ r →
      async_get_zone_data zf zone r =
        (.error ⟨r, errText (zf zone r).transientMsg⟩, tTrace 1 r)) := by
  have okCase : ∀ (g : Nat → Attempt PyVal) k v, 1 ≤ k → k ≤ r →
      (∀ i, 1 ≤ i → i < k → (g i).isTransient = true) → g k = .ok v →
      readWithRetry g r = (.ok v, tTrace 1 (k - 1) ++ [.att k]) := by
    intro g k v hk1 hkr ht hok
    obtain ⟨k', rfl⟩ : ∃ k', k = k' + 1 := ⟨k - 1, by omega⟩
    have := retryLoop_success g v k' r 0 none (by omega)
      (fun i hi1 hi2 => by simpa using ht i hi1 (by omega))
      (by simpa using hok)
    simpa using this
  have fatalCase : ∀ (g : Nat → Attempt PyVal) k m, 1 ≤ k → k ≤ r →
      (∀ i, 1 ≤ i → i < k → (g i).isTransient = true) → (g k).fatalMsg = some m →
      readWithRetry g r = (.error ⟨k, m⟩, tTrace 1 (k - 1) ++ [.att k]) := by
    intro g k m hk1 hkr ht hfat
    obtain ⟨k', rfl⟩ : ∃ k', k = k' + 1 := ⟨k - 1, by omega⟩
    have := retryLoop_fatal g m k' r 0 none (by omega)
      (fun i hi1 hi2 => by simpa using ht i hi1 (by omega))
      (by simpa using hfat)
    simpa using this
  have exhaustCase : ∀ (g : Nat → Attempt PyVal),
      (∀ i, 1 ≤ i → i ≤ r → (g i).isTransient = true) → 1 ≤ r →
      readWithRetry g r = (.error ⟨r, errText (g r).transientMsg⟩, tTrace 1 r) := by
    intro g ht hr
    obtain ⟨r', rfl⟩ : ∃ r', r = r' + 1 := ⟨r - 1, by omega⟩
    have := retryLoop_exhaust g r' 0 none
      (fun i hi1 hi2 => by simpa using ht i hi1 (by omega))
    simpa using this
  exact ⟨fun k v => okCase f k v, fun k v => okCase (zf zone) k v,
    fun k m => fatalCase f k m, fun k m => fatalCase (zf zone) k m,
    exhaustCase f, exhaustCase (zf zone)⟩

/-- Witness for C2: budget 5; the system read has transport failures on
attempts 1–4 and succeeds on attempt 5; the zone read gets a non-200 on
attempt 1 and stops at once. -/
theorem claim_C2_witness :
    async_get_system_data
      (fun i => if i = 5 then .ok (.str "sys") else .transport "Connection reset") 5 =
      (.ok (.str "sys"),
        [.att 1, .sleep1, .att 2, .sleep1, .att 3, .sleep1, .att 4, .sleep1, .att 5]) ∧
    async_get_zone_data
      (fun _ i => if i = 1 then .badStatus else .ok (.str "zone")) 3 5 =
      (.error ⟨1, "Response status not 200."⟩, [.att 1]) := by
  constructor
  · have h := (claim_C2
      (fun i => if i = 5 then .ok (.str "sys") else .transport "Connection reset")
      (fun _ i => if i = 1 then .badStatus else .ok (.str "zone")) 3 5).1 5 (.str "sys")
      (by omega) (by omega)
      (fun i h1 h2 => by
        have hne : i ≠ 5 := by omega
        simp [hne, Attempt.isTransient])
      (by simp)
    simpa [tTrace] using h
  · have h := (claim_C2
      (fun i => if i = 5 then .ok (.str "sys") else .transport "Connection reset")
      (fun _ i => if i = 1 then .badStatus else .ok (.str "zone")) 3 5).2.2.2.1 1
      "Response status not 200." (by omega) (by omega)
      (fun i h1 h2 => by omega)
      (by simp [Attempt.fatalMsg])
    simpa [tTrace] using h

/-- C6 counterexample: budget 5, non-200 on attempt 1. The loop does
break at once, but the `ApiError` surfaced is the same
"No valid response after ... Last error was: ..." wrapper used on
exhaustion (with the actual count and the cause embedded), not the
immediate cause itself. -/
theorem claim_C6_counterexample :
    (async_get_system_data (fun _ => .badStatus) 5).1 =
      .error ⟨1, "Response status not 200."⟩ ∧
    RetryError.message ⟨1, "Response status not 200."⟩ =
      "No valid response after 1 failed attempt. Last error was: Response status not 200." ∧
    RetryError.message ⟨1, "Response status not 200."⟩ ≠
      "Response status not 200." :=
  ⟨rfl, rfl, by decide⟩

/-- C6 amended: when the read loop breaks early on a fatal error at
attempt `k ≤ r`, the surfaced error reports the actual attempt count `k`
at which it broke (not the full budget) and carries the immediate cause
as its last-error text — but embedded in the same wrapper message format
as the exhaustion case, not raised as the cause alone. -/
theorem claim_C6_amended (f : Nat → Attempt PyVal) (r k : Nat) (m : String)
    (hk1 : 1 ≤ k) (hkr : k ≤ r)
    (ht : ∀ i, 1 ≤ i → i < k → (f i).isTransient = true)
    (hf : (f k).fatalMsg = some m) :
    (async_get_system_data f r).1 = .error ⟨k, m⟩ ∧
    RetryError.message ⟨k, m⟩ =
      "No valid response after " ++ toString k ++ " failed attempt" ++
        (if k > 1 then "s" else "") ++ ". Last error was: " ++ m := by
  obtain ⟨k', rfl⟩ : ∃ k', k = k' + 1 := ⟨k - 1, by omega⟩
  have h := retryLoop_fatal f m k' r 0 none (by omega)
    (fun i hi1 hi2 => by simpa using ht i hi1 (by omega))
    (by simpa using hf)
  constructor
  · show (retryLoop f r 0 none).1 = _
    rw [h]
    simp
  · rfl

/-! ## Lemmas about `async_get_all_data` -/

/-- If every zone number in `l` whose string form is `key` failed, `key`
is absent from the accumulated zones dict. -/
theorem plookup_zonesFrom_none (g : Nat → Option PyVal) (key : String) :
    ∀ l : List Nat, (∀ j ∈ l, toString j = key → g j = none) →
      plookup key (zonesFrom g l) = none := by
  intro l
  induction l with
  | nil => simp [zonesFrom, plookup]
  | cons j rest ih =>
    intro h
    cases hgj : g j with
    | some z =>
      by_cases hjk : toString j = key
      · rw [h j (by simp) hjk] at hgj
        cases hgj
      · simp only [zonesFrom, List.filterMap_cons, hgj, Option.map_some']
        rw [plookup, if_neg hjk]
        exact ih (fun j' hj' => h j' (by simp [hj']))
    | none =>
      simp only [zonesFrom, List.filterMap_cons, hgj, Option.map_none']
      exact ih (fun j' hj' => h j' (by simp [hj']))

/-- A zone in `l` whose fetch succeeded appears in the accumulated zones
dict under its zone-number string (given that no other zone number in `l`
shares that string form). -/
theorem plookup_zonesFrom_some (g : Nat → Option PyVal) :
    ∀ (l : List Nat) (i : Nat) (z : PyVal), i ∈ l → g i = some z →
      (∀ j ∈ l, toString j = toString i → j = i) →
      plookup (toString i) (zonesFrom g l) = some z := by
  intro l
  induction l with
  | nil => simp
  | cons j rest ih =>
    intro i z hi hgi hinj
    by_cases hji : toString j = toString i
    · have hj : j = i := hinj j (by simp) hji
      subst hj
      simp only [zonesFrom, List.filterMap_cons, hgi, Option.map_some']
      rw [plookup, if_pos rfl]
    · have hi' : i ∈ rest := by
        rcases List.mem_cons.mp hi with h | h
        · exact absurd (h ▸ rfl) hji
        · exact h
      cases hgj : g j with
      | some w =>
        simp only [zonesFrom, List.filterMap_cons, hgj, Option.map_some']
        rw [plookup, if_neg hji]
        exact ih i z hi' hgi (fun j' hj' => hinj j' (by simp [hj']))
      | none =>
        simp only [zonesFrom, List.filterMap_cons, hgj, Option.map_none']
        exact ih i z hi' hgi (fun j' hj' => hinj j' (by simp [hj']))

/-- `range' s n` (step 1) is strictly increasing. -/
theorem pairwise_lt_range1 : ∀ (n s : Nat), List.Pairwise (· < ·) (List.range' s n) := by
  intro n
  induction n with
  | zero => intro s; simp
  | succ n ih =>
    intro s
    rw [List.range'_succ s n 1]
    exact List.Pairwise.cons
      (fun m hm => by
        have := (List.mem_range'_1.mp hm).1
        omega)
      (ih (s + 1))

/-- Evaluation of `async_get_all_data` when the system fetch and the
`numberOfZones` extraction succeed: the zones loop runs and the combined
result is returned. -/
theorem async_get_all_data_ok (env : AllEnv) (retry : Nat) (sd : PyVal)
    (n : Int) (sys : PyVal)
    (hsys : (async_get_system_data env.sysAtt retry).1 = .ok sd)
    (hnum : extractNumZones sd = .ok n)
    (hget : pyGetD sd "system" (.dict []) = .ok sys) :
    async_get_all_data env retry =
      (.ok (.dict [("system", sys), ("zones", .dict (allDataZones env retry n))]),
        .fetchSystem :: (List.range' 1 n.toNat).map FetchEv.fetchZone) := by
  unfold async_get_all_data
  rw [hsys]
  dsimp only
  rw [hnum]
  dsimp only
  rw [hget]

/-- Evaluation of `async_get_all_data` when the system fetch itself
fails: the wrapped error, no zone fetch. -/
theorem async_get_all_data_sysfail (env : AllEnv) (retry : Nat) (e : RetryError)
    (hsys : (async_get_system_data env.sysAtt retry).1 = .error e) :
    async_get_all_data env retry =
      (.error ("Failed to get all data: " ++ e.message), [.fetchSystem]) := by
  unfold async_get_all_data
  rw [hsys]

/-- C1: when the system fetch succeeds (and `numberOfZones` parses), the
aggregation returns `ok` — no error reaches the caller even when zones
failed — shaped as a dict that always carries both a `system` entry and a
`zones` mapping; every zone in `1..N` whose fetch succeeded appears in
`zones` keyed by its zone-number string, and every zone whose fetch
exhausted its retry budget (raised `ApiError`) is omitted; if the system
fetch itself fails, the whole operation fails with a wrapped error. -/
theorem claim_C1 (env : AllEnv) (retry : Nat) :
    (∀ sd n sys,
      (async_get_system_data env.sysAtt retry).1 = .ok sd →
      extractNumZones sd = .ok n →
      pyGetD sd "system" (.dict []) = .ok sys →
      (async_get_all_data env retry).1 =
        .ok (.dict [("system", sys), ("zones", .dict (allDataZones env retry n))]) ∧
      plookup "system"
        [("system", sys), ("zones", .dict (allDataZones env retry n))] = some sys ∧
      plookup "zones"
        [("system", sys), ("zones", .dict (allDataZones env retry n))] =
          some (.dict (allDataZones env retry n)) ∧
      (∀ i, i ∈ List.range' 1 n.toNat →
        (∀ j ∈ List.range' 1 n.toNat, toString j = toString i → j = i) →
        (∀ z, (async_get_zone_data env.zoneAtt i retry).1 = .ok z →
          plookup (toString i) (allDataZones env retry n) = some z) ∧
        (∀ e, (async_get_zone_data env.zoneAtt i retry).1 = .error e →
          plookup (toString i) (allDataZones env retry n) = none)))
    ∧ (∀ e, (async_get_system_data env.sysAtt retry).1 = .error e →
        (async_get_all_data env retry).1 =
          .error ("Failed to get all data: " ++ e.message)) := by
  constructor
  · intro sd n sys hsys hnum hget
    have heval := async_get_all_data_ok env retry sd n sys hsys hnum hget
    refine ⟨by rw [heval], by simp [plookup], by simp [plookup], ?_⟩
    intro i hi hinj
    constructor
    · intro z hz
      have hg : zoneFetchResult env retry i = some z := by
        rw [zoneFetchResult, hz]
      exact plookup_zonesFrom_some (zoneFetchResult env retry)
        (List.range' 1 n.toNat) i z hi hg hinj
    · intro e he
      have hg : zoneFetchResult env retry i = none := by
        rw [zoneFetchResult, he]
      refine plookup_zonesFrom_none (zoneFetchResult env retry) (toString i)
        (List.range' 1 n.toNat) ?_
      intro j hj hji
      rw [hinj j hj hji]
      exact hg
  · intro e hsys
    rw [async_get_all_data_sysfail env retry e hsys]

/-- Witness for C1: 5 zones, zone 3 exhausts its retry budget, all others
succeed; the result contains zones {1,2,4,5} keyed by their number
strings, omits zone 3, and carries both a `system` and a `zones` entry. -/
theorem claim_C1_witness :
    (async_get_all_data envSample 5).1 =
      .ok (.dict [("system", sysSample),
        ("zones", .dict [("1", .str "zone"), ("2", .str "zone"),
          ("4", .str "zone"), ("5", .str "zone")])]) ∧
    plookup "3" (allDataZones envSample 5 5) = none ∧
    plookup "1" (allDataZones envSample 5 5) = some (.str "zone") ∧
    plookup "5" (allDataZones envSample 5 5) = some (.str "zone") := by
  obtain ⟨h1, _h2, _h3, hzone⟩ :=
    (claim_C1 envSample 5).1 sdSample 5 sysSample rfl rfl rfl
  refine ⟨by rw [h1]; rfl, ?_, ?_, ?_⟩
  · exact (hzone 3 (by decide) (by decide)).2 ⟨5, "Connection reset"⟩ rfl
  · exact (hzone 1 (by decide) (by decide)).1 (.str "zone") rfl
  · exact (hzone 5 (by decide) (by decide)).1 (.str "zone") rfl

/-- C7: every `async_get_all_data` call first fetches the system data,
reads the zone count from that just-fetched data, and then fetches zones
`1..N` one at a time in strictly increasing zone-number order. -/
theorem claim_C7 (env : AllEnv) (retry : Nat) (sd : PyVal) (n : Int)
    (hsys : (async_get_system_data env.sysAtt retry).1 = .ok sd)
    (hnum : extractNumZones sd = .ok n) :
    (async_get_all_data env retry).2 =
      .fetchSystem :: (List.range' 1 n.toNat).map FetchEv.fetchZone ∧
    (async_get_all_data env retry).2.head? = some .fetchSystem ∧
    List.Pairwise (· < ·) (List.range' 1 n.toNat) := by
  have htrace : (async_get_all_data env retry).2 =
      .fetchSystem :: (List.range' 1 n.toNat).map FetchEv.fetchZone := by
    cases hget : pyGetD sd "system" (.dict []) with
    | ok sys => rw [async_get_all_data_ok env retry sd n sys hsys hnum hget]
    | error e =>
      unfold async_get_all_data
      rw [hsys]
      dsimp only
      rw [hnum]
      dsimp only
      rw [hget]
  exact ⟨htrace, by rw [htrace]; rfl, pairwise_lt_range1 n.toNat 1⟩

/-- Witness for C7: the sample environment advertises 5 zones; the trace
is the system fetch followed by zones 1,2,3,4,5 in order. -/
theorem claim_C7_witness :
    (async_get_all_data envSample 5).2 =
      [.fetchSystem, .fetchZone 1, .fetchZone 2, .fetchZone 3,
       .fetchZone 4, .fetchZone 5] ∧
    List.Pairwise (· < ·) (List.range' 1 (5 : Int).toNat) := by
  obtain ⟨h1, _h2, h3⟩ := claim_C7 envSample 5 sdSample 5 rfl rfl
  exact ⟨by rw [h1]; rfl, h3⟩

/-! ## Lemmas about writes and the cover adapter -/

/-- A write's single GET: one request whatever happens; 200 returns the
body, anything else is an error. -/
theorem singleGet_spec (context : String) (req : Request) (r : HttpResp) :
    (singleGet context req r).2 = [req] ∧
    (∀ body, r = .resp 200 body → (singleGet context req r).1 = .ok body) ∧
    (∀ status body, r = .resp status body → status ≠ 200 →
      exceptOk (singleGet context req r).1 = false) ∧
    (∀ e, r = .netErr e → exceptOk (singleGet context req r).1 = false) := by
  cases r with
  | resp status body =>
    by_cases h : status = 200
    · subst h
      refine ⟨by simp [singleGet], ?_, ?_, ?_⟩
      · intro b hb
        cases hb
        simp [singleGet]
      · intro st b hb hne
        cases hb
        exact absurd rfl hne
      · intro e he
        cases he
    · refine ⟨by simp [singleGet, h], ?_, ?_, ?_⟩
      · intro b hb
        cases hb
        exact absurd rfl h
      · intro st b hb _hne
        cases hb
        simp [singleGet, h, exceptOk]
      · intro e he
        cases he
  | netErr e =>
    refine ⟨by simp [singleGet], ?_, ?_, ?_⟩
    · intro b hb
      cases hb
    · intro st b hb _hne
      cases hb
    · intro e' he
      cases he
      simp [singleGet, exceptOk]

/-- A command's write events carry no refresh. -/
theorem countRefresh_writes (l : List Request) :
    countRefresh (l.map CoverEv.write) = 0 := by
  induction l with
  | nil => rfl
  | cons x xs ih =>
    simp only [List.map_cons, countRefresh, List.filter, CoverEv.isRefreshReq]
    exact ih

/-- Write events followed by a single refresh request count one refresh. -/
theorem countRefresh_writes_refresh (l : List Request) :
    countRefresh (l.map CoverEv.write ++ [.refreshReq]) = 1 := by
  have h := countRefresh_writes l
  simp only [countRefresh, List.filter_append] at h ⊢
  simp [h, List.filter, CoverEv.isRefreshReq]

/-- Extracting write requests from a write-only trace. -/
theorem writeReqs_writes (l : List Request) :
    writeReqs (l.map CoverEv.write) = l := by
  induction l with
  | nil => rfl
  | cons x xs ih => simpa [writeReqs, List.filterMap] using ih

/-- A trailing refresh request contributes no write. -/
theorem writeReqs_writes_refresh (l : List Request) :
    writeReqs (l.map CoverEv.write ++ [.refreshReq]) = l := by
  have h := writeReqs_writes l
  simp only [writeReqs, List.filterMap_append] at h ⊢
  simp [h, List.filterMap]

/-- C3: a refresh whose `get_all_data` fails leaves the previously held
snapshot untouched (when one exists) and reports the refresh as failed
with the wrapped error; a failed first refresh (no prior snapshot)
surfaces the failure with no snapshot presented; a successful refresh
replaces the snapshot wholesale with the new result. -/
theorem claim_C3 (c : Coordinator) (fetch : Except String PyVal) :
    (∀ err s, fetch = .error err → c.data = some s →
      (c.refresh fetch).1.currentSnapshot = some s ∧
      (c.refresh fetch).2 = .failed ("Error communicating with API: " ++ err))
    ∧ (∀ err, fetch = .error err → c.data = none →
      (c.refresh fetch).2 = .failed ("Error communicating with API: " ++ err) ∧
      (c.refresh fetch).1.currentSnapshot = none)
    ∧ (∀ d, fetch = .ok d →
      (c.refresh fetch).1.currentSnapshot = some d ∧
      (c.refresh fetch).2 = .success) := by
  refine ⟨?_, ?_, ?_⟩
  · intro err s hf hs
    subst hf
    simp [Coordinator.refresh, _async_update_data, Coordinator.currentSnapshot, hs]
  · intro err hf hn
    subst hf
    simp [Coordinator.refresh, _async_update_data, Coordinator.currentSnapshot, hn]
  · intro d hf
    subst hf
    simp [Coordinator.refresh, _async_update_data, Coordinator.currentSnapshot]

/-- Witness for C3: a failed refresh on a coordinator holding a snapshot,
a failed first refresh, and a successful refresh. -/
theorem claim_C3_witness :
    ((Coordinator.mk (some (.str "old"))).refresh (.error "boom")).1.currentSnapshot =
      some (.str "old") ∧
    ((Coordinator.mk (some (.str "old"))).refresh (.error "boom")).2 =
      .failed "Error communicating with API: boom" ∧
    ((Coordinator.mk none).refresh (.error "boom")).2 =
      .failed "Error communicating with API: boom" ∧
    ((Coordinator.mk none).refresh (.error "boom")).1.currentSnapshot = none ∧
    ((Coordinator.mk (some (.str "old"))).refresh (.ok (.str "new"))).1.currentSnapshot =
      some (.str "new") := by
  obtain ⟨h1, h2⟩ := (claim_C3 ⟨some (.str "old")⟩ (.error "boom")).1 "boom"
    (.str "old") rfl rfl
  obtain ⟨h3, h4⟩ := (claim_C3 ⟨none⟩ (.error "boom")).2.1 "boom" rfl rfl
  obtain ⟨h5, _⟩ := (claim_C3 ⟨some (.str "old")⟩ (.ok (.str "new"))).2.2
    (.str "new") rfl
  exact ⟨h1, h2, h3, h4, h5⟩

/-- C5: each write operation (set system data, set zone data, rename
system, set zone timer) issues exactly one GET with no retry loop; on
status 200 the raw response text is returned; on non-200 or a transport
error an `ApiError` is raised directly, still with only the one request
issued. -/
theorem claim_C5 :
    (∀ params r, (async_set_system_data params r).2.length = 1 ∧
      (∀ body, r = .resp 200 body → (async_set_system_data params r).1 = .ok body) ∧
      (∀ status body, r = .resp status body → status ≠ 200 →
        exceptOk (async_set_system_data params r).1 = false) ∧
      (∀ e, r = .netErr e → exceptOk (async_set_system_data params r).1 = false))
    ∧ (∀ zone params r, (async_set_zone_data zone params r).2.length = 1 ∧
      (∀ body, r = .resp 200 body → (async_set_zone_data zone params r).1 = .ok body) ∧
      (∀ status body, r = .resp status body → status ≠ 200 →
        exceptOk (async_set_zone_data zone params r).1 = false) ∧
      (∀ e, r = .netErr e → exceptOk (async_set_zone_data zone params r).1 = false))
    ∧ (∀ name r, (async_change_system_name name r).2.length = 1 ∧
      (∀ body, r = .resp 200 body → (async_change_system_name name r).1 = .ok body) ∧
      (∀ status body, r = .resp status body → status ≠ 200 →
        exceptOk (async_change_system_name name r).1 = false) ∧
      (∀ e, r = .netErr e → exceptOk (async_change_system_name name r).1 = false))
    ∧ (∀ sh sm eh em ss r, (async_set_zone_timer sh sm eh em ss r).2.length = 1 ∧
      (∀ body, r = .resp 200 body →
        (async_set_zone_timer sh sm eh em ss r).1 = .ok body) ∧
      (∀ status body, r = .resp status body → status ≠ 200 →
        exceptOk (async_set_zone_timer sh sm eh em ss r).1 = false) ∧
      (∀ e, r = .netErr e →
        exceptOk (async_set_zone_timer sh sm eh em ss r).1 = false)) := by
  refine ⟨?_, ?_, ?_, ?_⟩
  · intro params r
    have h := singleGet_spec "Failed to set system data" ⟨"/setSystemData", params⟩ r
    exact ⟨by rw [async_set_system_data, h.1]; rfl, h.2.1, h.2.2.1, h.2.2.2⟩
  · intro zone params r
    have h := singleGet_spec "Failed to set zone data"
      ⟨"/setZoneData", ("zone", toString zone) :: params⟩ r
    exact ⟨by rw [async_set_zone_data, h.1]; rfl, h.2.1, h.2.2.1, h.2.2.2⟩
  · intro name r
    have h := singleGet_spec "Failed to change system name"
      ⟨"/changeName", [("name", name)]⟩ r
    exact ⟨by rw [async_change_system_name, h.1]; rfl, h.2.1, h.2.2.1, h.2.2.2⟩
  · intro sh sm eh em ss r
    rw [async_set_zone_timer.eq_def]
    dsimp only
    exact ⟨by rw [(singleGet_spec _ _ r).1]; rfl, (singleGet_spec _ _ r).2.1,
      (singleGet_spec _ _ r).2.2.1, (singleGet_spec _ _ r).2.2.2⟩

/-- Witness for C5: one request and the raw body on 200; one request and
an error on 500 and on a transport failure. -/
theorem claim_C5_witness :
    (async_set_system_data [("mode", "2")] (.resp 200 "ok")).1 = .ok "ok" ∧
    (async_set_system_data [("mode", "2")] (.resp 200 "ok")).2.length = 1 ∧
    exceptOk (async_change_system_name "home" (.resp 500 "err")).1 = false ∧
    (async_change_system_name "home" (.resp 500 "err")).2.length = 1 ∧
    exceptOk (async_set_zone_data 2 [("zoneSetting", "1")] (.netErr "timeout")).1 = false ∧
    (async_set_zone_timer (some 6) (some 30) (some 22) none 1 (.resp 200 "done")).1 =
      .ok "done" := by
  obtain ⟨hs, hzd, hcn, hzt⟩ := claim_C5
  exact ⟨(hs [("mode", "2")] (.resp 200 "ok")).2.1 "ok" rfl,
    (hs [("mode", "2")] (.resp 200 "ok")).1,
    (hcn "home" (.resp 500 "err")).2.2.1 500 "err" rfl (by omega),
    (hcn "home" (.resp 500 "err")).1,
    (hzd 2 [("zoneSetting", "1")] (.netErr "timeout")).2.2.2 "timeout" rfl,
    (hzt (some 6) (some 30) (some 22) none 1 (.resp 200 "done")).2.1 "done" rfl⟩

/-- C8: each cover command (open, close, set position with a position
value) that succeeds triggers exactly one refresh request afterwards and
leaves the coordinator's snapshot untouched (no optimistic update); a
command whose write fails triggers no refresh. -/
theorem claim_C8 (zone : Int) (p : Int) (r : HttpResp) (c : Coordinator) :
    ((exceptOk (async_open_cover zone r c).1 = true →
        countRefresh (async_open_cover zone r c).2.1 = 1) ∧
      (exceptOk (async_open_cover zone r c).1 = false →
        countRefresh (async_open_cover zone r c).2.1 = 0) ∧
      (async_open_cover zone r c).2.2 = c)
    ∧ ((exceptOk (async_close_cover zone r c).1 = true →
        countRefresh (async_close_cover zone r c).2.1 = 1) ∧
      (exceptOk (async_close_cover zone r c).1 = false →
        countRefresh (async_close_cover zone r c).2.1 = 0) ∧
      (async_close_cover zone r c).2.2 = c)
    ∧ ((exceptOk (async_set_cover_position zone (some p) r c).1 = true →
        countRefresh (async_set_cover_position zone (some p) r c).2.1 = 1) ∧
      (exceptOk (async_set_cover_position zone (some p) r c).1 = false →
        countRefresh (async_set_cover_position zone (some p) r c).2.1 = 0) ∧
      (async_set_cover_position zone (some p) r c).2.2 = c) := by
  refine ⟨?_, ?_, ?_⟩
  · rcases hx : async_set_zone_setting zone true r with ⟨res, reqs⟩
    cases res with
    | ok body =>
      simp [async_open_cover, hx, exceptOk, countRefresh_writes_refresh]
    | error e =>
      simp [async_open_cover, hx, exceptOk, countRefresh_writes]
  · rcases hx : async_set_zone_setting zone false r with ⟨res, reqs⟩
    cases res with
    | ok body =>
      simp [async_close_cover, hx, exceptOk, countRefresh_writes_refresh]
    | error e =>
      simp [async_close_cover, hx, exceptOk, countRefresh_writes]
  · by_cases hp : p = 0
    · subst hp
      rcases hx : async_set_zone_setting zone false r with ⟨res, reqs⟩
      cases res with
      | ok body =>
        simp [async_set_cover_position, hx, exceptOk, countRefresh_writes_refresh]
      | error e =>
        simp [async_set_cover_position, hx, exceptOk, countRefresh_writes]
    · rcases hx : async_set_zone_percent zone p r with ⟨res, reqs⟩
      cases res with
      | ok body =>
        simp [async_set_cover_position, hp, hx, exceptOk, countRefresh_writes_refresh]
      | error e =>
        simp [async_set_cover_position, hp, hx, exceptOk, countRefresh_writes]

/-- Witness for C8: zone 2, a 200 write (one refresh) and a failed write
(no refresh); coordinator untouched in both. -/
theorem claim_C8_witness :
    countRefresh (async_open_cover 2 (.resp 200 "ok") ⟨some (.str "snap")⟩).2.1 = 1 ∧
    countRefresh (async_open_cover 2 (.netErr "refused") ⟨some (.str "snap")⟩).2.1 = 0 ∧
    (async_open_cover 2 (.resp 200 "ok") ⟨some (.str "snap")⟩).2.2 =
      Coordinator.mk (some (.str "snap")) ∧
    countRefresh (async_set_cover_position 2 (some 50) (.resp 200 "ok")
      ⟨some (.str "snap")⟩).2.1 = 1 := by
  obtain ⟨ho, _hc, _hp⟩ := claim_C8 2 50 (.resp 200 "ok") ⟨some (.str "snap")⟩
  obtain ⟨hof, _, _⟩ := claim_C8 2 50 (.netErr "refused") ⟨some (.str "snap")⟩
  exact ⟨ho.1 rfl, hof.2.1 rfl, ho.2.2,
    (claim_C8 2 50 (.resp 200 "ok") ⟨some (.str "snap")⟩).2.2.1 rfl⟩

/-- C9: the percent write always couples `userPercentSetting` with
`zoneSetting=1` in its single request, so commanding a damper percentage
also commands the zone open; the cover adapter's set-position at 0
instead issues the close write (`zoneSetting=0`) whose request carries no
`userPercentSetting` at all. -/
theorem claim_C9 (zone : Int) (percent : Int) (r : HttpResp) (c : Coordinator) :
    (async_set_zone_percent zone percent r).2 =
      [⟨"/setZoneData",
        [("zone", toString zone), ("userPercentSetting", toString percent),
         ("zoneSetting", "1")]⟩] ∧
    ("zoneSetting", "1") ∈
      [("zone", toString zone), ("userPercentSetting", toString percent),
       ("zoneSetting", "1")] ∧
    writeReqs (async_set_cover_position zone (some 0) r c).2.1 =
      [⟨"/setZoneData", [("zone", toString zone), ("zoneSetting", "0")]⟩] ∧
    ("zoneSetting", "0") ∈ [("zone", toString zone), ("zoneSetting", "0")] ∧
    (∀ v, ("userPercentSetting", v) ∉
      [("zone", toString zone), ("zoneSetting", "0")]) := by
  refine ⟨?_, by simp, ?_, by simp, ?_⟩
  · rw [async_set_zone_percent, async_set_zone_data]
    exact (singleGet_spec _ _ r).1
  · have hreq : (async_set_zone_setting zone false r).2 =
        [⟨"/setZoneData", [("zone", toString zone), ("zoneSetting", "0")]⟩] := by
      rw [async_set_zone_setting, async_set_zone_data]
      exact (singleGet_spec _ _ r).1
    rcases hx : async_set_zone_setting zone false r with ⟨res, reqs⟩
    have hreqs : reqs =
        [⟨"/setZoneData", [("zone", toString zone), ("zoneSetting", "0")]⟩] := by
      rw [hx] at hreq
      exact hreq
    cases res with
    | ok body =>
      simp only [async_set_cover_position, hx, if_true]
      rw [writeReqs_writes_refresh]
      exact hreqs
    | error e =>
      simp only [async_set_cover_position, hx, if_true]
      rw [writeReqs_writes]
      exact hreqs
  · intro v
    simp [Prod.ext_iff]

/-- Witness for C6's amended claim: budget 5, transport failure on
attempt 1, malformed XML on attempt 2. -/
theorem claim_C6_amended_witness :
    ((async_get_system_data
        (fun i => if i = 1 then .transport "reset" else .parseFail "Invalid XML response: x") 5).1 =
      .error ⟨2, "XML parsing error: Invalid XML response: x"⟩) ∧
    RetryError.message ⟨2, "XML parsing error: Invalid XML response: x"⟩ =
      "No valid response after 2 failed attempts. Last error was: XML parsing error: Invalid XML response: x" := by
  have h := claim_C6_amended
    (fun i => if i = 1 then .transport "reset" else .parseFail "Invalid XML response: x")
    5 2 "XML parsing error: Invalid XML response: x" (by omega) (by omega)
    (fun i h1 h2 => by
      have : i = 1 := by omega
      simp [this, Attempt.isTransient])
    (by simp [Attempt.fatalMsg])
  exact ⟨h.1, by decide⟩

end EZone
